import Mathlib

/-!
Shallow embedding of the reconciliation engine of FF_ShellyMilight
(src/src/FF_ShellyMilight.cpp).

The engine's process-wide globals become the fields of `EngState`.  The
physical relay pin and the blocking settle delay are made observable through
an explicit hardware-event trace (`HWEvent`), so that statements about what
is actually driven on the pin (as opposed to the recorded `relayOn` flag)
can be expressed.  `millis()` is passed in as an explicit `now : Nat`
argument; unsigned 32-bit wrap-around subtraction is modelled by `sub32`.

Configuration macros that live in FF_Shelly.h (which is not part of the
sources) are modelled from the spec where a concrete value is needed and
kept as parameters where the claims quantify over them.
-/

/-- A hardware-visible action: a `digitalWrite` of the relay pin
(`true` = the RELAY_ON level, `false` = the RELAY_OFF level), or a
blocking `delay(ms)`. -/
inductive HWEvent where
  | pinWrite (lvl : Bool) : HWEvent
  | delayMs (ms : Nat) : HWEvent
deriving DecidableEq, Repr

/-- The engine's state: the process-wide globals of FF_ShellyMilight.cpp
(`bulbOn`, `relayOn`, `lastMqttCommandSent`, `mqttCommandFailed`, the stat
counters), plus the physical pin level `pinOn` (true = RELAY_ON level), the
list `outbox` of commands published to the command topic (`true` = BULB_ON
payload), and the hardware-event trace `hwTrace`. -/
structure EngState where
  bulbOn : Bool
  relayOn : Bool
  pinOn : Bool
  lastMqttCommandSent : Nat
  mqttCommandFailed : Bool
  pushCount : Nat
  pushLost : Nat
  syncLost : Nat
  outbox : List Bool
  hwTrace : List HWEvent
deriving DecidableEq, Repr

/-- Boot state: globals zero-initialised, relay pin driven to RELAY_OFF in
`setup()` (line 414). -/
def initState : EngState :=
  { bulbOn := false
    relayOn := false
    pinOn := false
    lastMqttCommandSent := 0
    mqttCommandFailed := false
    pushCount := 0
    pushLost := 0
    syncLost := 0
    outbox := []
    hwTrace := [] }

/-- Unsigned 32-bit wrap-around subtraction `a - b`, as computed on
`unsigned long` values by `millis() - lastMqttCommandSent`. -/
def sub32 (a b : Nat) : Nat :=
  (a + (2 ^ 32 - b % 2 ^ 32)) % 2 ^ 32

/-- Modelled from the spec: `COMMAND_TIMEOUT` is defined in FF_Shelly.h,
which is not among the sources; the spec gives a nominal 1.5 s. -/
def COMMAND_TIMEOUT : Nat := 1500

/-- `setRelayOn` (lines 191-200).  Note that the `digitalWrite` drives the
pin from `bulbOn` (`bulbOn ? RELAY_ON : RELAY_OFF`), not from `newState`;
only the recorded `relayOn` flag receives `newState`. -/
def setRelayOn (newState : Bool) (s : EngState) : EngState :=
  if s.relayOn ≠ newState then
    { s with pinOn := s.bulbOn
             hwTrace := s.hwTrace ++ [HWEvent.pinWrite s.bulbOn]
             relayOn := newState }
  else s

/-- `setBulbOn` (lines 203-217); the boolean result of the original is
ignored by every caller and dropped here, the optional shadow LED is not
modelled. -/
def setBulbOn (newState : Bool) (s : EngState) : EngState :=
  if s.bulbOn ≠ newState then
    { s with bulbOn := newState }
  else s

/-- `mqttSendCommand` (lines 77-83): publish BULB_ON/BULB_OFF according to
`newState` and record `millis()` in `lastMqttCommandSent`. -/
def mqttSendCommand (newState : Bool) (now : Nat) (s : EngState) : EngState :=
  { s with outbox := s.outbox ++ [newState]
           lastMqttCommandSent := now }

/-- Index at which `mqttCallback` writes the terminating zero into
`message` (lines 91 and 95): `msglen = length < sizeof(message) ? length :
sizeof(message)`, then `message[msglen] = 0`.  `B` is
`MQTT_MAX_PACKET_SIZE`, the size of the buffer. -/
def termIndex (B len : Nat) : Nat :=
  if len < B then len else B

/-- The C string held in `message` after the copy: the first `termIndex`
bytes of the payload, cut at the first embedded zero byte (which is where
`strstr` stops reading). -/
def cMessage (B : Nat) (payload : List Nat) (len : Nat) : List Nat :=
  (payload.take (termIndex B len)).takeWhile (fun b => b ≠ 0)

/-- `leadMatch needle hay` holds when `hay` starts with `needle`
(byte-wise); the inner comparison loop of `strstr`. -/
def leadMatch : List Nat → List Nat → Bool
  | [], _ => true
  | _ :: _, [] => false
  | a :: as, b :: bs => a == b && leadMatch as bs

/-- `hasTok needle hay` is true exactly when `strstr(hay, needle)` returns
a non-null pointer: `needle` occurs as a contiguous substring of `hay`
(an empty needle always matches, as with `strstr`). -/
def hasTok (needle : List Nat) : List Nat → Bool
  | [] => leadMatch needle []
  | b :: bs => leadMatch needle (b :: bs) || hasTok needle bs

/-- `mqttCallback` (lines 86-125).  `B` is MQTT_MAX_PACKET_SIZE, `onTok`
and `offTok` are the STATE_ON / STATE_OFF substring tokens from
FF_Shelly.h, `payload`/`len` the inbound message, `now` the value of
`millis()` during the call. -/
def mqttCallback (B : Nat) (onTok offTok : List Nat) (payload : List Nat)
    (len now : Nat) (s : EngState) : EngState :=
  let message := cMessage B payload len
  if s.mqttCommandFailed then
    let s1 := { s with syncLost := s.syncLost + 1 }
    let s2 := mqttSendCommand s1.bulbOn now s1
    { s2 with mqttCommandFailed := false }
  else
    if hasTok onTok message then
      let s1 := setBulbOn true s
      let s2 := { s1 with lastMqttCommandSent := 0 }
      setRelayOn true s2
    else
      if hasTok offTok message then
        let s1 := setBulbOn false s
        { s1 with lastMqttCommandSent := 0 }
      else
        s

/-- `buttonLoop` (lines 220-245) with the debouncer abstracted: `toggle`
is true exactly when `debouncer.update()` reported a change whose edge
matches the configured BUTTON_HIGH_TO_LOW / BUTTON_LOW_TO_HIGH policy. -/
def buttonLoop (toggle : Bool) (now : Nat) (s : EngState) : EngState :=
  if toggle then
    let s1 := { s with pushCount := s.pushCount + 1 }
    let s2 := setBulbOn (!s1.bulbOn) s1
    mqttSendCommand s2.bulbOn now s2
  else s

/-- The `bulbOn && relayOn` special case inside the timeout branch
(lines 262-266): the discharge maneuver, `setRelayOn(false)` followed by
the blocking `delay(1000)`. -/
def dischargeAfterTimeout (sa : EngState) : EngState :=
  if sa.bulbOn && sa.relayOn then
    { setRelayOn false sa with
        hwTrace := (setRelayOn false sa).hwTrace ++ [HWEvent.delayMs 1000] }
  else sa

/-- The body of the timeout branch of `manageCommandTimeout`
(lines 253-266): bump `pushLost`, clear `lastMqttCommandSent`, raise
`mqttCommandFailed`, then the discharge special case. -/
def fireTimeout (s : EngState) : EngState :=
  dischargeAfterTimeout
    { s with pushLost := s.pushLost + 1
             lastMqttCommandSent := 0
             mqttCommandFailed := true }

/-- `manageCommandTimeout` (lines 248-274): everything is guarded by
`lastMqttCommandSent` being non-zero; after the (possible) timeout branch,
`setRelayOn(bulbOn)` runs whenever `mqttCommandFailed` is set. -/
def manageCommandTimeout (now : Nat) (s : EngState) : EngState :=
  if s.lastMqttCommandSent ≠ 0 then
    let s1 := if sub32 now s.lastMqttCommandSent > COMMAND_TIMEOUT then
                fireTimeout s
              else s
    if s1.mqttCommandFailed then setRelayOn s1.bulbOn s1 else s1
  else s

/-- One engine step: delivery of one inbound message by the MQTT pump, one
timeout check, or one matching button edge. -/
inductive Step where
  | inbound (payload : List Nat) : Step
  | timeoutCheck : Step
  | buttonEdge : Step
deriving DecidableEq, Repr

/-- Run one `Step` at time `now`. -/
def runStep (B : Nat) (onTok offTok : List Nat) (now : Nat) :
    Step → EngState → EngState
  | Step.inbound p, s => mqttCallback B onTok offTok p p.length now s
  | Step.timeoutCheck, s => manageCommandTimeout now s
  | Step.buttonEdge, s => buttonLoop true now s

/-- The inputs one iteration of `loop()` consumes: the messages the MQTT
pump delivers, the current `millis()`, and whether a matching button edge
occurred. -/
structure TickInput where
  now : Nat
  inbound : List (List Nat)
  buttonEdge : Bool
deriving Repr

/-- Message delivery performed by `mqttClient.loop()` inside `mqttLoop`:
the callback runs once per delivered message. -/
def processInbound (B : Nat) (onTok offTok : List Nat)
    (msgs : List (List Nat)) (now : Nat) (s : EngState) : EngState :=
  msgs.foldl (fun st p => mqttCallback B onTok offTok p p.length now st) s

/-- One iteration of `loop()` (lines 453-482): `mqttLoop` (message
delivery), then `manageCommandTimeout`, then `buttonLoop`. -/
def runTick (B : Nat) (onTok offTok : List Nat) (t : TickInput)
    (s : EngState) : EngState :=
  buttonLoop t.buttonEdge t.now
    (manageCommandTimeout t.now
      (processInbound B onTok offTok t.inbound t.now s))

/-- Modelled from the spec: the STATE_ON token from FF_Shelly.h (not in the
sources); concrete bytes "ON", used only to instantiate counterexamples
and witnesses. -/
def stateOnTok : List Nat := [79, 78]

/-- Modelled from the spec: the STATE_OFF token from FF_Shelly.h (not in
the sources); concrete bytes "OFF". -/
def stateOffTok : List Nat := [79, 70, 70]

/-- State for the C1 evaluation: bulb believed on, relay on (the situation
of the discharge maneuver). -/
def c1_state : EngState :=
  { initState with bulbOn := true, relayOn := true, pinOn := true }

/-- State for the C2 evaluation: bulb on, relay on, one command pending. -/
def c2_state : EngState :=
  { initState with bulbOn := true, relayOn := true, pinOn := true,
                   lastMqttCommandSent := 1 }

/-- C3 trace: tick 1 presses the button, tick 2 runs into the command
timeout (bypass entry), tick 3 presses the button again while in bypass. -/
def c3_s2 : EngState :=
  runTick 256 stateOnTok stateOffTok ⟨2000, [], false⟩
    (runTick 256 stateOnTok stateOffTok ⟨10, [], true⟩ initState)

/-- C3 trace, end of the third tick. -/
def c3_s3 : EngState :=
  runTick 256 stateOnTok stateOffTok ⟨3000, [], true⟩ c3_s2

/-- Bypass-mode state with a pending command, for the C3 witness. -/
def c3_wstate : EngState :=
  { initState with mqttCommandFailed := true, lastMqttCommandSent := 5 }

/-- State with one command pending, for the C5 witness. -/
def c5_wstate : EngState :=
  { initState with lastMqttCommandSent := 1 }

/-- Bypass-mode state with the bulb believed on, for the C6 witness. -/
def c6_wstate : EngState :=
  { initState with mqttCommandFailed := true, bulbOn := true }

/-- Bypass-mode state, for the C7 counterexample. -/
def c7_state : EngState :=
  { initState with mqttCommandFailed := true }

/-- Normal-mode state: relay on, bulb believed off, command pending — the
situation after pressing the button to switch the lamp off. -/
def c8_state : EngState :=
  { initState with relayOn := true, pinOn := true, lastMqttCommandSent := 1 }

/-- Normal-mode state with the relay on, for the C8 witness. -/
def c8_wstate : EngState :=
  { initState with relayOn := true, pinOn := true }

theorem setRelayOn_relayOn (b : Bool) (s : EngState) :
    (setRelayOn b s).relayOn = b := by
  unfold setRelayOn
  split
  · rfl
  · next h => exact not_not.mp h

theorem setRelayOn_bulbOn (b : Bool) (s : EngState) :
    (setRelayOn b s).bulbOn = s.bulbOn := by
  unfold setRelayOn
  split <;> rfl

theorem setRelayOn_last (b : Bool) (s : EngState) :
    (setRelayOn b s).lastMqttCommandSent = s.lastMqttCommandSent := by
  unfold setRelayOn
  split <;> rfl

theorem setRelayOn_failed (b : Bool) (s : EngState) :
    (setRelayOn b s).mqttCommandFailed = s.mqttCommandFailed := by
  unfold setRelayOn
  split <;> rfl

theorem setRelayOn_pushLost (b : Bool) (s : EngState) :
    (setRelayOn b s).pushLost = s.pushLost := by
  unfold setRelayOn
  split <;> rfl

theorem setRelayOn_pushCount (b : Bool) (s : EngState) :
    (setRelayOn b s).pushCount = s.pushCount := by
  unfold setRelayOn
  split <;> rfl

theorem setRelayOn_syncLost (b : Bool) (s : EngState) :
    (setRelayOn b s).syncLost = s.syncLost := by
  unfold setRelayOn
  split <;> rfl

theorem setRelayOn_outbox (b : Bool) (s : EngState) :
    (setRelayOn b s).outbox = s.outbox := by
  unfold setRelayOn
  split <;> rfl

theorem setBulbOn_bulbOn (b : Bool) (s : EngState) :
    (setBulbOn b s).bulbOn = b := by
  unfold setBulbOn
  split
  · rfl
  · next h => exact not_not.mp h

theorem setBulbOn_relayOn (b : Bool) (s : EngState) :
    (setBulbOn b s).relayOn = s.relayOn := by
  unfold setBulbOn
  split <;> rfl

theorem setBulbOn_pinOn (b : Bool) (s : EngState) :
    (setBulbOn b s).pinOn = s.pinOn := by
  unfold setBulbOn
  split <;> rfl

theorem setBulbOn_last (b : Bool) (s : EngState) :
    (setBulbOn b s).lastMqttCommandSent = s.lastMqttCommandSent := by
  unfold setBulbOn
  split <;> rfl

theorem setBulbOn_failed (b : Bool) (s : EngState) :
    (setBulbOn b s).mqttCommandFailed = s.mqttCommandFailed := by
  unfold setBulbOn
  split <;> rfl

theorem setBulbOn_pushCount (b : Bool) (s : EngState) :
    (setBulbOn b s).pushCount = s.pushCount := by
  unfold setBulbOn
  split <;> rfl

theorem setBulbOn_outbox (b : Bool) (s : EngState) :
    (setBulbOn b s).outbox = s.outbox := by
  unfold setBulbOn
  split <;> rfl

theorem fireTimeout_failed (s : EngState) :
    (fireTimeout s).mqttCommandFailed = true := by
  unfold fireTimeout dischargeAfterTimeout
  split
  · simp [setRelayOn_failed]
  · rfl

theorem fireTimeout_last (s : EngState) :
    (fireTimeout s).lastMqttCommandSent = 0 := by
  unfold fireTimeout dischargeAfterTimeout
  split
  · simp [setRelayOn_last]
  · rfl

theorem fireTimeout_pushLost (s : EngState) :
    (fireTimeout s).pushLost = s.pushLost + 1 := by
  unfold fireTimeout dischargeAfterTimeout
  split
  · simp [setRelayOn_pushLost]
  · rfl

theorem fireTimeout_bulbOn (s : EngState) :
    (fireTimeout s).bulbOn = s.bulbOn := by
  unfold fireTimeout dischargeAfterTimeout
  split
  · simp [setRelayOn_bulbOn]
  · rfl

/-- Claim C1: evaluation of `setRelayOn false` at a state where `bulbOn`
and `relayOn` are true (the discharge-maneuver call).  The recorded
`relayOn` becomes false, yet the hardware write drives the pin to the
RELAY_ON level (it is computed from `bulbOn`, not from `newState`), so the
physical pin level no longer corresponds to the recorded state. -/
theorem c1_bug :
    (setRelayOn false c1_state).relayOn = false ∧
    (setRelayOn false c1_state).pinOn = true ∧
    (setRelayOn false c1_state).hwTrace = [HWEvent.pinWrite true] := by
  decide

/-- Claim C2: evaluation of the timeout tick at `bulbOn = relayOn = true`.
The hardware trace of the discharge maneuver is a write of the RELAY_ON
level, the 1 s delay, and another write of the RELAY_ON level: the relay
hardware is never driven OFF, contrary to the claimed
OFF / wait / ON sequence (only the recorded `relayOn` goes false and back
to true). -/
theorem c2_bug :
    (manageCommandTimeout 2000 c2_state).hwTrace =
      [HWEvent.pinWrite true, HWEvent.delayMs 1000, HWEvent.pinWrite true] ∧
    (manageCommandTimeout 2000 c2_state).pinOn = true ∧
    (manageCommandTimeout 2000 c2_state).relayOn = true := by
  decide

/-- Claim C3, counterexample: after entering bypass mode (tick 2, flag
raised), a button press on tick 3 toggles `bulbOn` to false but the tick
ends with `relayOn` still true — the tick was taken entirely in bypass
mode, yet RelayState differs from DesiredBulbState at its end, because the
mirroring `setRelayOn(bulbOn)` only runs when `lastMqttCommandSent` is
non-zero at the timeout check. -/
theorem c3_counterexample :
    c3_s2.mqttCommandFailed = true ∧ c3_s3.mqttCommandFailed = true ∧
    c3_s3.relayOn = true ∧ c3_s3.bulbOn = false := by
  decide

/-- Claim C3, amended: while `mqttCommandFailed` is set, a timeout check
that observes a non-zero pending-command timestamp forces RelayState to
equal DesiredBulbState; on checks where the timestamp is zero (and between
a button toggle and the next such check) the relay may lag behind. -/
theorem c3_bypass_mirror (now : Nat) (s : EngState)
    (h1 : s.mqttCommandFailed = true) (h2 : s.lastMqttCommandSent ≠ 0) :
    (manageCommandTimeout now s).relayOn = (manageCommandTimeout now s).bulbOn := by
  unfold manageCommandTimeout
  rw [if_pos h2]
  by_cases hto : sub32 now s.lastMqttCommandSent > COMMAND_TIMEOUT
  · rw [if_pos hto, if_pos (fireTimeout_failed s)]
    rw [setRelayOn_relayOn, setRelayOn_bulbOn]
  · rw [if_neg hto, if_pos h1]
    rw [setRelayOn_relayOn, setRelayOn_bulbOn]

theorem c3_witness :
    (manageCommandTimeout 6 c3_wstate).relayOn =
      (manageCommandTimeout 6 c3_wstate).bulbOn :=
  c3_bypass_mirror 6 c3_wstate (by decide) (by decide)

/-- Claim C4, counterexample: from the boot state, a button press toggles
DesiredBulbState to ON, but RelayState stays OFF — `buttonLoop` never
calls `setRelayOn`, contrary to the claimed immediate relay-on. -/
theorem c4_counterexample :
    (buttonLoop true 10 initState).bulbOn = true ∧
    (buttonLoop true 10 initState).relayOn = false := by
  decide

/-- Claim C4, amended: on every matching button edge the engine toggles
DesiredBulbState, publishes the new DesiredBulbState, replaces the
PendingCommand timer with the current time and increments the press
counter, but leaves RelayState untouched (the relay is only switched on
later, by a confirming inbound ON message or by the bypass mirroring). -/
theorem c4_button (now : Nat) (s : EngState) :
    (buttonLoop true now s).bulbOn = !s.bulbOn ∧
    (buttonLoop true now s).relayOn = s.relayOn ∧
    (buttonLoop true now s).outbox = s.outbox ++ [!s.bulbOn] ∧
    (buttonLoop true now s).lastMqttCommandSent = now ∧
    (buttonLoop true now s).pushCount = s.pushCount + 1 := by
  unfold buttonLoop mqttSendCommand
  simp [setBulbOn_bulbOn, setBulbOn_relayOn, setBulbOn_outbox, setBulbOn_pushCount]

/-- Claim C5: if a command is pending (non-zero timestamp) and the wrapped
elapsed time exceeds COMMAND_TIMEOUT, the timeout check increments the
timeout counter `pushLost`, clears `lastMqttCommandSent` and raises
`mqttCommandFailed`. -/
theorem c5_timeout (now : Nat) (s : EngState)
    (h1 : s.lastMqttCommandSent ≠ 0)
    (h2 : sub32 now s.lastMqttCommandSent > COMMAND_TIMEOUT) :
    (manageCommandTimeout now s).pushLost = s.pushLost + 1 ∧
    (manageCommandTimeout now s).lastMqttCommandSent = 0 ∧
    (manageCommandTimeout now s).mqttCommandFailed = true := by
  unfold manageCommandTimeout
  rw [if_pos h1, if_pos h2, if_pos (fireTimeout_failed s)]
  rw [setRelayOn_pushLost, setRelayOn_last, setRelayOn_failed]
  exact ⟨fireTimeout_pushLost s, fireTimeout_last s, fireTimeout_failed s⟩

theorem c5_witness :
    (manageCommandTimeout 2000 c5_wstate).pushLost = c5_wstate.pushLost + 1 ∧
    (manageCommandTimeout 2000 c5_wstate).lastMqttCommandSent = 0 ∧
    (manageCommandTimeout 2000 c5_wstate).mqttCommandFailed = true :=
  c5_timeout 2000 c5_wstate (by decide) (by decide)

/-- Claim C6: while `mqttCommandFailed` is set, the callback ignores the
payload entirely (the result does not depend on it): it increments the
resync counter `syncLost` exactly once, republishes the current
DesiredBulbState, records the send time and clears the flag — and changes
nothing else. -/
theorem c6_recovery (B : Nat) (onTok offTok payload : List Nat)
    (len now : Nat) (s : EngState) (h : s.mqttCommandFailed = true) :
    mqttCallback B onTok offTok payload len now s =
      { s with syncLost := s.syncLost + 1
               outbox := s.outbox ++ [s.bulbOn]
               lastMqttCommandSent := now
               mqttCommandFailed := false } := by
  unfold mqttCallback mqttSendCommand
  rw [if_pos h]

theorem c6_witness :
    mqttCallback 256 stateOnTok stateOffTok [3] 1 9 c6_wstate =
      { c6_wstate with syncLost := c6_wstate.syncLost + 1
                       outbox := c6_wstate.outbox ++ [c6_wstate.bulbOn]
                       lastMqttCommandSent := 9
                       mqttCommandFailed := false } :=
  c6_recovery 256 stateOnTok stateOffTok [3] 1 9 c6_wstate (by decide)

/-- Claim C7, counterexample: in bypass mode, a message whose payload
(byte 88, the letter X) contains neither token still clears the failure
flag, increments `syncLost` and publishes an outbound command — the claim
only holds in normal mode. -/
theorem c7_counterexample :
    hasTok stateOnTok (cMessage 256 [88] 1) = false ∧
    hasTok stateOffTok (cMessage 256 [88] 1) = false ∧
    (mqttCallback 256 stateOnTok stateOffTok [88] 1 42 c7_state).mqttCommandFailed = false ∧
    (mqttCallback 256 stateOnTok stateOffTok [88] 1 42 c7_state).syncLost = 1 ∧
    (mqttCallback 256 stateOnTok stateOffTok [88] 1 42 c7_state).outbox = [false] := by
  decide

/-- Claim C7, amended: in normal mode (`mqttCommandFailed` false), an
inbound message whose buffered payload contains neither the ON token nor
the OFF token leaves the whole engine state — desired state, relay,
pending command, flag, counters, outbox, hardware trace — unchanged. -/
theorem c7_no_token (B : Nat) (onTok offTok payload : List Nat)
    (len now : Nat) (s : EngState) (h0 : s.mqttCommandFailed = false)
    (h1 : hasTok onTok (cMessage B payload len) = false)
    (h2 : hasTok offTok (cMessage B payload len) = false) :
    mqttCallback B onTok offTok payload len now s = s := by
  unfold mqttCallback
  rw [h0]
  simp [h1, h2]

theorem c7_witness :
    mqttCallback 256 stateOnTok stateOffTok [88, 89] 2 5 initState = initState :=
  c7_no_token 256 stateOnTok stateOffTok [88, 89] 2 5 initState
    (by decide) (by decide) (by decide)

/-- Claim C8, counterexample: a timeout check taken with
`mqttCommandFailed` still false (normal mode at entry), relay ON and
desired state OFF turns the relay OFF within that same step (bypass entry
plus mirroring happen inside one step), contradicting the claim that every
step started in normal mode preserves relay-ON. -/
theorem c8_counterexample :
    c8_state.mqttCommandFailed = false ∧ c8_state.relayOn = true ∧
    (manageCommandTimeout 2000 c8_state).relayOn = false := by
  decide

/-- Claim C8, amended: for every engine step that both starts and ends
with `mqttCommandFailed` false (no bypass entry during the step), an ON
relay stays ON; the relay is only powered off inside the step that enters
bypass mode, or in bypass mode itself. -/
theorem c8_relay_stays_on (B : Nat) (onTok offTok : List Nat) (now : Nat)
    (st : Step) (s : EngState)
    (h0 : s.mqttCommandFailed = false)
    (h1 : (runStep B onTok offTok now st s).mqttCommandFailed = false)
    (h2 : s.relayOn = true) :
    (runStep B onTok offTok now st s).relayOn = true := by
  cases st with
  | inbound p =>
      simp only [runStep]
      unfold mqttCallback
      rw [h0]
      by_cases hOn : hasTok onTok (cMessage B p p.length) = true
      · simp [hOn, setRelayOn_relayOn]
      · by_cases hOff : hasTok offTok (cMessage B p p.length) = true
        · simp [hOn, hOff, setBulbOn_relayOn, h2]
        · simp [hOn, hOff, h2]
  | timeoutCheck =>
      simp only [runStep] at h1 ⊢
      unfold manageCommandTimeout at h1 ⊢
      by_cases hl : s.lastMqttCommandSent ≠ 0
      · rw [if_pos hl] at h1 ⊢
        by_cases hto : sub32 now s.lastMqttCommandSent > COMMAND_TIMEOUT
        · rw [if_pos hto, if_pos (fireTimeout_failed s)] at h1
          rw [setRelayOn_failed, fireTimeout_failed] at h1
          exact absurd h1 (by simp)
        · rw [if_neg hto]
          simp [h0, h2]
      · rw [if_neg hl] at h1 ⊢
        exact h2
  | buttonEdge =>
      simp only [runStep]
      unfold buttonLoop mqttSendCommand
      simp [setBulbOn_relayOn, h2]

theorem c8_witness :
    (runStep 256 stateOnTok stateOffTok 7 Step.buttonEdge c8_wstate).relayOn = true :=
  c8_relay_stays_on 256 stateOnTok stateOffTok 7 Step.buttonEdge c8_wstate
    (by decide) (by decide) (by decide)

/-- Claim C9: for every payload length at least MQTT_MAX_PACKET_SIZE, the
terminating zero is written at index exactly MQTT_MAX_PACKET_SIZE — one
past the last valid index of the buffer, not strictly below the buffer
size as claimed: an out-of-bounds write. -/
theorem c9_overflow (B len : Nat) (h : B ≤ len) :
    termIndex B len = B ∧ ¬ termIndex B len < B := by
  unfold termIndex
  rw [if_neg (Nat.not_lt.mpr h)]
  exact ⟨rfl, Nat.lt_irrefl B⟩

theorem c9_witness :
    256 ≤ 256 ∧ (termIndex 256 256 = 256 ∧ ¬ termIndex 256 256 < 256) :=
  ⟨by decide, c9_overflow 256 256 (by decide)⟩

/-- Claim C10: in normal mode, a payload whose buffered message contains
both tokens takes the ON branch (the ON check comes first): desired state
ON, relay ON, pending command cleared. -/
theorem c10_on_precedence (B : Nat) (onTok offTok payload : List Nat)
    (len now : Nat) (s : EngState) (h0 : s.mqttCommandFailed = false)
    (h1 : hasTok onTok (cMessage B payload len) = true)
    (_h2 : hasTok offTok (cMessage B payload len) = true) :
    (mqttCallback B onTok offTok payload len now s).bulbOn = true ∧
    (mqttCallback B onTok offTok payload len now s).relayOn = true ∧
    (mqttCallback B onTok offTok payload len now s).lastMqttCommandSent = 0 := by
  unfold mqttCallback
  rw [h0]
  simp [h1, setRelayOn_relayOn, setRelayOn_bulbOn, setRelayOn_last, setBulbOn_bulbOn]

theorem c10_witness :
    (mqttCallback 256 stateOnTok stateOffTok [79, 78, 79, 70, 70] 5 4 initState).bulbOn = true ∧
    (mqttCallback 256 stateOnTok stateOffTok [79, 78, 79, 70, 70] 5 4 initState).relayOn = true ∧
    (mqttCallback 256 stateOnTok stateOffTok [79, 78, 79, 70, 70] 5 4 initState).lastMqttCommandSent = 0 :=
  c10_on_precedence 256 stateOnTok stateOffTok [79, 78, 79, 70, 70] 5 4 initState
    (by decide) (by decide) (by decide)
